import Mathlib

/-!
# Boda Trust Guard — verification of the crash-detection and evidence pipeline

Shallow embedding of the core logic of the `boda-trust-guard` application:

* the motion-sample buffer and the crash detector (`src/hooks/useSensorFusion.ts`),
* the detection state machine (`src/components/BodaBox.tsx` together with
  `ConfirmingState` / `TriggeredState`),
* the evidence capturer and record sealer (`src/utils/evidenceCapture.ts`),
* the offline durability queue (`src/hooks/useOfflineQueue.ts`).

JavaScript numbers are modelled as exact rationals (`ℚ`) in the sensor
domain and as integers (`ℤ`) where the program only ever handles integral
values (timestamps in milliseconds, coordinate values in the concrete
inputs considered here).  Fallible asynchronous operations are modelled as
`Except`-valued functions whose environment outcomes (camera, geolocation,
microphone, network dispatch) are explicit parameters.
-/

namespace Boda

/-! ## Sensor fusion (`src/hooks/useSensorFusion.ts`) -/

/-- One motion sample, as pushed by `handleMotionEvent`. -/
structure SensorReading where
  timestamp : ℚ
  accelerationX : ℚ
  accelerationY : ℚ
  accelerationZ : ℚ
  rotationAlpha : ℚ
  rotationBeta : ℚ
  rotationGamma : ℚ
  deriving DecidableEq, Repr

/-- `BUFFER_SIZE = 100` (~2 seconds at 50 Hz). -/
def BUFFER_SIZE : ℕ := 100

/-- `HIGH_G_THRESHOLD = 4.0` (4 G force threshold). -/
def HIGH_G_THRESHOLD : ℚ := 4

/-- `SUSTAINED_DURATION_MS = 100` (minimum duration for sustained high G). -/
def SUSTAINED_DURATION_MS : ℚ := 100

/-- `ROTATION_THRESHOLD = 90` (90 degrees rotation threshold). -/
def ROTATION_THRESHOLD : ℚ := 90

/-- Square of `calculateMagnitude`.  The source computes
`Math.sqrt(x*x + y*y + z*z)` and only ever compares the result against the
non-negative threshold `HIGH_G_THRESHOLD`; since the square root is
monotone on non-negative reals, `sqrt m > t ↔ m > t²`, so the embedding
keeps the (rational) square and compares against the squared threshold. -/
def calculateMagnitudeSq (x y z : ℚ) : ℚ :=
  x * x + y * y + z * z

/-- The high-G test applied to each recent reading inside `analyzeBuffer`:
`calculateMagnitude(ax, ay, az) > HIGH_G_THRESHOLD`, expressed on squares. -/
def exceedsHighG (reading : SensorReading) : Bool :=
  decide (HIGH_G_THRESHOLD * HIGH_G_THRESHOLD <
    calculateMagnitudeSq reading.accelerationX reading.accelerationY reading.accelerationZ)

/-- `calculateRotationChange`: `0` for fewer than two readings, otherwise the
maximum over the three axes of the absolute difference between the last and
the first reading. -/
def calculateRotationChange : List SensorReading → ℚ
  | [] => 0
  | [_] => 0
  | first :: next :: rest =>
    let last := (next :: rest).getLast (by simp)
    max (max |last.rotationAlpha - first.rotationAlpha|
             |last.rotationBeta - first.rotationBeta|)
        |last.rotationGamma - first.rotationGamma|

/-- The windowed retrieval: the samples whose timestamp is within
`durationMs` of `now` (`buffer.filter(reading => now - reading.timestamp <= durationMs)`). -/
def windowRetrieval (now durationMs : ℚ) (buffer : List SensorReading) : List SensorReading :=
  buffer.filter fun reading => decide (now - reading.timestamp ≤ durationMs)

/-- `recentReadings` as computed inside `analyzeBuffer`, with the analysis
time `now` (the source reads `Date.now()`) passed explicitly. -/
def recentReadings (now : ℚ) (buffer : List SensorReading) : List SensorReading :=
  windowRetrieval now SUSTAINED_DURATION_MS buffer

/-- `analyzeBuffer`: the three-stage crash detector, with the buffer and the
current time passed explicitly (the source reads them from a ref and from
`Date.now()`). -/
def analyzeBuffer (now : ℚ) (buffer : List SensorReading) : Bool :=
  if buffer.length < 10 then false
  else
    let recent := recentReadings now buffer
    if recent.length < 5 then false
    else
      let highGReadings := recent.filter exceedsHighG
      if highGReadings.length < 3 then false
      else
        let rotationChange := calculateRotationChange recent
        if rotationChange < ROTATION_THRESHOLD then false
        else true

/-- The buffer-maintenance step of `handleMotionEvent`: push the new reading,
then `shift()` (drop the oldest sample) if the length exceeds `BUFFER_SIZE`. -/
def pushSample (buffer : List SensorReading) (reading : SensorReading) : List SensorReading :=
  let buffer' := buffer ++ [reading]
  if BUFFER_SIZE < buffer'.length then buffer'.tail else buffer'

/-- Convenience constructor for concrete readings. -/
def mkReading (ts ax ay az ra rb rg : ℚ) : SensorReading :=
  ⟨ts, ax, ay, az, ra, rb, rg⟩

/-- Six samples, all within the last 100 ms of time `100`, each with
acceleration magnitude `5.0` g, and rotation change `120` on the alpha axis
between the first and the last sample (the spec's end-to-end scenario A). -/
def sixSampleBuffer : List SensorReading :=
  [mkReading 50 5 0 0 0 0 0,
   mkReading 60 5 0 0 20 0 0,
   mkReading 70 5 0 0 40 0 0,
   mkReading 80 5 0 0 60 0 0,
   mkReading 90 5 0 0 90 0 0,
   mkReading 100 5 0 0 120 0 0]

/-- Four earlier samples lying outside the 100 ms window at time `100`. -/
def fourOldSamples : List SensorReading :=
  [mkReading (-1000) 0 0 0 0 0 0,
   mkReading (-900) 0 0 0 0 0 0,
   mkReading (-800) 0 0 0 0 0 0,
   mkReading (-700) 0 0 0 0 0 0]

/-- Scenario A padded to a ten-sample buffer: the four old samples followed
by the six recent high-G, high-rotation samples. -/
def tenSampleBuffer : List SensorReading :=
  fourOldSamples ++ sixSampleBuffer

/-- The timestamp of the most recent (last-pushed) sample, `0` on an empty
buffer. -/
def lastTimestamp (buffer : List SensorReading) : ℚ :=
  ((buffer.getLast?).map SensorReading.timestamp).getD 0

/-! ## Detection state machine (`src/components/BodaBox.tsx`,
`ConfirmingState.tsx`, `TriggeredState.tsx`) -/

/-- `AppState = 'ARMED' | 'CONFIRMING' | 'TRIGGERED'`. -/
inductive AppState where
  | ARMED
  | CONFIRMING
  | TRIGGERED
  deriving DecidableEq, Repr

/-- The state machine's state: the `appState` of `BodaBox` together with
the `countdown` of the mounted `ConfirmingState` (meaningful only while
`CONFIRMING`; it starts at `5` on entry). -/
structure MachineState where
  appState : AppState
  countdown : ℕ
  deriving DecidableEq, Repr

/-- The events that can reach the state machine:
`crashDetected` — `isCrashDetected` turns true (the `useEffect` in `BodaBox`);
`emergencyButton` — `handleEmergencyButton` (rendered only in `ArmedState`);
`cancelAlert` — `handleCancelAlert` via the cancel button of `ConfirmingState`;
`resetApp` — `handleReset` via the reset button of `TriggeredState`;
`countdownTick` — one second of `ConfirmingState`'s countdown timer elapses
(when the countdown is already `0` the timer branch instead fires
`onConfirm`, i.e. `handleConfirmCrash`). -/
inductive MachineEvent where
  | crashDetected
  | emergencyButton
  | cancelAlert
  | resetApp
  | countdownTick
  deriving DecidableEq, Repr

/-- The countdown start value of `ConfirmingState` (`useState(5)`). -/
def COUNTDOWN_START : ℕ := 5

/-- One transition of the detection state machine.  The guards on
`cancelAlert`, `resetApp` and `countdownTick` reflect that the components
delivering those events are mounted only in the corresponding `appState`;
the guards on `crashDetected` and `emergencyButton` are explicit in the
source (`if (isCrashDetected && appState === 'ARMED')`,
`if (appState === 'ARMED')`). -/
def stepMachine (s : MachineState) (e : MachineEvent) : MachineState :=
  match e with
  | .crashDetected => if s.appState = .ARMED then ⟨.CONFIRMING, COUNTDOWN_START⟩ else s
  | .emergencyButton => if s.appState = .ARMED then ⟨.CONFIRMING, COUNTDOWN_START⟩ else s
  | .cancelAlert => if s.appState = .CONFIRMING then ⟨.ARMED, s.countdown⟩ else s
  | .resetApp => if s.appState = .TRIGGERED then ⟨.ARMED, s.countdown⟩ else s
  | .countdownTick =>
    if s.appState = .CONFIRMING then
      if s.countdown = 0 then ⟨.TRIGGERED, 0⟩ else ⟨.CONFIRMING, s.countdown - 1⟩
    else s

/-! ## Offline durability queue (`src/hooks/useOfflineQueue.ts`) -/

/-- `type: 'emergency_sms' | 'trust_packet'`. -/
inductive QueueItemType where
  | emergencySMS
  | trustPacketUpload
  deriving DecidableEq, Repr

/-- A persisted queue entry.  The `data` payload is kept as its serialized
form; `timestamp` is `Date.now()` at enqueue time. -/
structure QueuedItem where
  id : String
  itemType : QueueItemType
  data : String
  timestamp : ℤ
  retryCount : ℕ
  deriving DecidableEq, Repr

/-- `addToQueue`: appends a fresh item with `retryCount: 0` to the persisted
queue (the generated id — time plus random suffix — is passed explicitly). -/
def addToQueue (queue : List QueuedItem) (id : String) (itemType : QueueItemType)
    (data : String) (timestamp : ℤ) : List QueuedItem :=
  queue ++ [⟨id, itemType, data, timestamp, 0⟩]

/-- Whether the body of the `try` block for one queue item succeeds:
`trust_packet` items always succeed (the code only logs and records the id),
`emergency_sms` items succeed iff the `sendEmergencySMS` dispatch resolves,
which is the environment outcome `dispatchOk`. -/
def attemptSucceeds (dispatchOk : QueuedItem → Bool) (item : QueuedItem) : Bool :=
  match item.itemType with
  | .emergencySMS => dispatchOk item
  | .trustPacketUpload => true

/-- The per-item step of the `processQueue` loop: returns the item as it
stands after the iteration (with `retryCount` incremented on failure),
whether its id was pushed to `processedIds`, and whether it was logged as
removed after exhausting its retries. -/
def processItem (dispatchOk : QueuedItem → Bool) (item : QueuedItem) :
    QueuedItem × Bool × Bool :=
  if attemptSucceeds dispatchOk item then (item, true, false)
  else
    let updated : QueuedItem := { item with retryCount := item.retryCount + 1 }
    if 3 ≤ updated.retryCount then (updated, true, true) else (updated, false, false)

/-- The result of one `processQueue` call: the persisted queue afterwards and
the ids reported (logged) as permanently failed. -/
structure ProcessResult where
  queue : List QueuedItem
  reported : List String
  deriving DecidableEq, Repr

/-- `processQueue`: returns immediately when offline or when the queue is
empty; otherwise iterates over every item, collects `processedIds`
(successes and third-failure removals), and — only when `processedIds` is
non-empty — writes back the mutated queue with the processed ids filtered
out.  When `processedIds` is empty the persisted queue is left untouched,
so in-memory `retryCount` increments are discarded. -/
def processQueue (online : Bool) (dispatchOk : QueuedItem → Bool)
    (queue : List QueuedItem) : ProcessResult :=
  if online = false then ⟨queue, []⟩
  else if queue = [] then ⟨queue, []⟩
  else
    let results := queue.map (processItem dispatchOk)
    let processedIds := (results.filter fun t => t.2.1).map fun t => t.1.id
    let reported := (results.filter fun t => t.2.2).map fun t => t.1.id
    if processedIds = [] then ⟨queue, reported⟩
    else ⟨(results.map fun t => t.1).filter fun item => !(processedIds.contains item.id), reported⟩

/-- A queue item whose dispatch never succeeds, sitting alone in the queue. -/
def stuckItem : QueuedItem :=
  ⟨"sms_1_aaaaaaaaa", .emergencySMS, "payload", 1, 0⟩

/-! ## JSON serialization (`JSON.stringify` as used on trust packets)

The trust packet only ever holds strings, numbers, `null` and nested plain
objects, so the JSON model covers exactly those value forms.  Object members
are kept in insertion order, as `JSON.stringify` serializes them. -/

/-- JSON values of the shapes occurring in a trust packet. -/
inductive JsonValue where
  | jnull
  | jnum (n : ℤ)
  | jstr (s : String)
  | jobj (members : List (String × JsonValue))

/-- Hex digit character (lowercase), for escapes and digests. -/
def hexChar (n : ℕ) : Char :=
  if n < 10 then Char.ofNat (48 + n) else Char.ofNat (87 + n)

/-- How `JSON.stringify` escapes one character inside a string literal. -/
def jsonEscapeChar (c : Char) : String :=
  if c = '"' then "\\\""
  else if c = '\\' then "\\\\"
  else if c = '\x08' then "\\b"
  else if c = '\t' then "\\t"
  else if c = '\n' then "\\n"
  else if c = '\x0c' then "\\f"
  else if c = '\r' then "\\r"
  else if c.toNat < 32 then "\\u00" ++ String.mk [hexChar (c.toNat / 16), hexChar (c.toNat % 16)]
  else String.singleton c

/-- `JSON.stringify`'s quoting of a string value. -/
def quoteJson (s : String) : String :=
  "\"" ++ String.join (s.toList.map jsonEscapeChar) ++ "\""

mutual

/-- `JSON.stringify(value)` — the compact serialization (no space argument). -/
def stringifyCompact : JsonValue → String
  | .jnull => "null"
  | .jnum n => toString n
  | .jstr s => quoteJson s
  | .jobj members => "\x7b" ++ stringifyMembersCompact members ++ "\x7d"

/-- Comma-joined `"key":value` members of a compact object. -/
def stringifyMembersCompact : List (String × JsonValue) → String
  | [] => ""
  | [(k, v)] => quoteJson k ++ ":" ++ stringifyCompact v
  | (k, v) :: m :: rest =>
    quoteJson k ++ ":" ++ stringifyCompact v ++ "," ++ stringifyMembersCompact (m :: rest)

end

/-- `n` levels of the two-space indentation gap. -/
def indentPad (n : ℕ) : String :=
  String.join (List.replicate n "  ")

mutual

/-- `JSON.stringify(value, null, 2)` — the two-space pretty-printed
serialization, at nesting level `level`. -/
def stringifyIndent2 : ℕ → JsonValue → String
  | _, .jnull => "null"
  | _, .jnum n => toString n
  | _, .jstr s => quoteJson s
  | _, .jobj [] => "\x7b\x7d"
  | level, .jobj (m :: rest) =>
    "\x7b\n" ++ stringifyMembersIndent2 (level + 1) (m :: rest) ++ "\n" ++ indentPad level ++ "\x7d"

/-- The `",\n"`-joined, indented `"key": value` members of a pretty-printed
object. -/
def stringifyMembersIndent2 : ℕ → List (String × JsonValue) → String
  | _, [] => ""
  | level, [(k, v)] => indentPad level ++ quoteJson k ++ ": " ++ stringifyIndent2 level v
  | level, (k, v) :: m :: rest =>
    indentPad level ++ quoteJson k ++ ": " ++ stringifyIndent2 level v ++ ",\n" ++
      stringifyMembersIndent2 level (m :: rest)

end

/-! ## SHA-256 (`crypto.subtle.digest('SHA-256', ...)` in `generateHash`)

The browser digest primitive, embedded as the FIPS 180-4 algorithm on byte
lists, with 32-bit words as naturals reduced modulo `2^32`. -/

/-- Truncation to a 32-bit word. -/
def w32 (x : ℕ) : ℕ := x % 4294967296

/-- Right rotation of a 32-bit word by `n`. -/
def rotr32 (n x : ℕ) : ℕ := x / 2 ^ n + x % 2 ^ n * 2 ^ (32 - n)

/-- Bitwise complement of a 32-bit word. -/
def not32 (x : ℕ) : ℕ := 4294967295 - x

/-- SHA-256 choice function. -/
def sha256Ch (e f g : ℕ) : ℕ := (e &&& f) ^^^ (not32 e &&& g)

/-- SHA-256 majority function. -/
def sha256Maj (a b c : ℕ) : ℕ := (a &&& b) ^^^ (a &&& c) ^^^ (b &&& c)

/-- Big sigma-0. -/
def bigSigma0 (x : ℕ) : ℕ := rotr32 2 x ^^^ rotr32 13 x ^^^ rotr32 22 x

/-- Big sigma-1. -/
def bigSigma1 (x : ℕ) : ℕ := rotr32 6 x ^^^ rotr32 11 x ^^^ rotr32 25 x

/-- Small sigma-0. -/
def smallSigma0 (x : ℕ) : ℕ := rotr32 7 x ^^^ rotr32 18 x ^^^ (x >>> 3)

/-- Small sigma-1. -/
def smallSigma1 (x : ℕ) : ℕ := rotr32 17 x ^^^ rotr32 19 x ^^^ (x >>> 10)

/-- Big-endian bytes of `v`, `numBytes` wide. -/
def toBytesBE (numBytes v : ℕ) : List ℕ :=
  (List.range numBytes).map fun i => v / 2 ^ (8 * (numBytes - 1 - i)) % 256

/-- SHA-256 message padding: `0x80`, zeros to 56 mod 64, then the bit length
as a 64-bit big-endian integer. -/
def sha256Pad (msg : List ℕ) : List ℕ :=
  msg ++ [128] ++ List.replicate ((119 - msg.length % 64) % 64) 0 ++ toBytesBE 8 (8 * msg.length)

/-- Big-endian 32-bit words from a byte list (whole 4-byte groups). -/
def toWordsBE : List ℕ → List ℕ
  | b0 :: b1 :: b2 :: b3 :: rest => (((b0 * 256 + b1) * 256 + b2) * 256 + b3) :: toWordsBE rest
  | _ => []

/-- Split a word list into 16-word blocks. -/
def chunk16 : List ℕ → List (List ℕ)
  | [] => []
  | w :: rest => ((w :: rest).take 16) :: chunk16 ((w :: rest).drop 16)
termination_by l => l.length
decreasing_by simp [List.length_drop]; omega

/-- Extend a 16-word block to the 64-word message schedule. -/
def sha256Schedule (block : List ℕ) : List ℕ :=
  ((List.range 48).foldl (fun (w : Array ℕ) _ =>
    let n := w.size
    w.push (w32 (smallSigma1 (w.getD (n - 2) 0) + w.getD (n - 7) 0 +
      smallSigma0 (w.getD (n - 15) 0) + w.getD (n - 16) 0))) block.toArray).toList

/-- The eight working variables of the compression function. -/
structure Hash8 where
  a : ℕ
  b : ℕ
  c : ℕ
  d : ℕ
  e : ℕ
  f : ℕ
  g : ℕ
  h : ℕ
  deriving DecidableEq, Repr

/-- One round of the compression function on a `(word, constant)` pair. -/
def sha256Round (st : Hash8) (wk : ℕ × ℕ) : Hash8 :=
  let t1 := w32 (st.h + bigSigma1 st.e + sha256Ch st.e st.f st.g + wk.2 + wk.1)
  let t2 := w32 (bigSigma0 st.a + sha256Maj st.a st.b st.c)
  ⟨w32 (t1 + t2), st.a, st.b, st.c, w32 (st.d + t1), st.e, st.f, st.g⟩

/-- SHA-256 initial hash value. -/
def sha256H0 : Hash8 :=
  ⟨1779033703, 3144134277, 1013904242, 2773480762, 1359893119, 2600822924, 528734635, 1541459225⟩

/-- SHA-256 round constants. -/
def sha256K : List ℕ :=
  [1116352408, 1899447441, 3049323471, 3921009573,
   961987163, 1508970993, 2453635748, 2870763221,
   3624381080, 310598401, 607225278, 1426881987,
   1925078388, 2162078206, 2614888103, 3248222580,
   3835390401, 4022224774, 264347078, 604807628,
   770255983, 1249150122, 1555081692, 1996064986,
   2554220882, 2821834349, 2952996808, 3210313671,
   3336571891, 3584528711, 113926993, 338241895,
   666307205, 773529912, 1294757372, 1396182291,
   1695183700, 1986661051, 2177026350, 2456956037,
   2730485921, 2820302411, 3259730800, 3345764771,
   3516065817, 3600352804, 4094571909, 275423344,
   430227734, 506948616, 659060556, 883997877,
   958139571, 1322822218, 1537002063, 1747873779,
   1955562222, 2024104815, 2227730452, 2361852424,
   2428436474, 2756734187, 3204031479, 3329325298]

/-- Process one 16-word block. -/
def sha256Block (h0 : Hash8) (block : List ℕ) : Hash8 :=
  let fin := ((sha256Schedule block).zip sha256K).foldl sha256Round h0
  ⟨w32 (h0.a + fin.a), w32 (h0.b + fin.b), w32 (h0.c + fin.c), w32 (h0.d + fin.d),
   w32 (h0.e + fin.e), w32 (h0.f + fin.f), w32 (h0.g + fin.g), w32 (h0.h + fin.h)⟩

/-- SHA-256 digest of a byte list, as 32 bytes. -/
def sha256Bytes (msg : List ℕ) : List ℕ :=
  let fin := (chunk16 (toWordsBE (sha256Pad msg))).foldl sha256Block sha256H0
  (([fin.a, fin.b, fin.c, fin.d, fin.e, fin.f, fin.g, fin.h]).map (toBytesBE 4)).flatten

/-- Lowercase two-digit hex of a byte (`b.toString(16).padStart(2, '0')`). -/
def byteToHex (b : ℕ) : String :=
  String.mk [hexChar (b / 16 % 16), hexChar (b % 16)]

/-- UTF-8 bytes of a string (`new TextEncoder().encode(data)`). -/
def utf8Bytes (s : String) : List ℕ :=
  s.toUTF8.toList.map fun b => b.toNat

/-- `generateHash`: lowercase hex SHA-256 of the UTF-8 encoding of `data`. -/
def generateHash (data : String) : String :=
  String.join ((sha256Bytes (utf8Bytes data)).map byteToHex)

/-! ## Evidence capture and record sealing (`src/utils/evidenceCapture.ts`) -/

/-- The `location` member of a trust packet (`latitude`, `longitude`,
`accuracy`, each `number | null`). -/
structure LocationFields where
  latitude : Option ℤ
  longitude : Option ℤ
  accuracy : Option ℤ
  deriving DecidableEq, Repr

/-- The `evidence` member of a trust packet. -/
structure EvidenceFields where
  photo : String
  audioSignature : String
  deriving DecidableEq, Repr

/-- The `metadata` member of a trust packet. -/
structure MetadataFields where
  userAgent : String
  deviceInfo : String
  captureDelay : ℤ
  deriving DecidableEq, Repr

/-- A `TrustPacket`; `hash` is optional and absent before sealing. -/
structure TrustPacket where
  eventId : String
  timestamp : String
  location : LocationFields
  evidence : EvidenceFields
  metadata : MetadataFields
  hash : Option String
  deriving DecidableEq, Repr

/-- A nullable JSON number. -/
def jsonOfOptInt : Option ℤ → JsonValue
  | none => .jnull
  | some n => .jnum n

/-- The JSON value `JSON.stringify` sees for a trust packet: members in the
object-literal insertion order of `captureEvidence`, with the `hash` member
present only once it has been assigned. -/
def jsonOfPacket (p : TrustPacket) : JsonValue :=
  .jobj ([("eventId", .jstr p.eventId),
    ("timestamp", .jstr p.timestamp),
    ("location", .jobj [("latitude", jsonOfOptInt p.location.latitude),
      ("longitude", jsonOfOptInt p.location.longitude),
      ("accuracy", jsonOfOptInt p.location.accuracy)]),
    ("evidence", .jobj [("photo", .jstr p.evidence.photo),
      ("audioSignature", .jstr p.evidence.audioSignature)]),
    ("metadata", .jobj [("userAgent", .jstr p.metadata.userAgent),
      ("deviceInfo", .jstr p.metadata.deviceInfo),
      ("captureDelay", .jnum p.metadata.captureDelay)])] ++
   (match p.hash with
    | none => []
    | some h => [("hash", .jstr h)]))

/-- The packet with the `hash` member removed
(`const { hash, ...packetWithoutHash } = trustPacket`). -/
def eraseHash (p : TrustPacket) : TrustPacket := { p with hash := none }

/-- Steps 4–5 of `captureEvidence`: serialize the packet as it stands
(`JSON.stringify(trustPacket)`), hash it, and attach the digest. -/
def sealPacket (p : TrustPacket) : TrustPacket :=
  { p with hash := some (generateHash (stringifyCompact (jsonOfPacket p))) }

/-- The string `handleCopyVerification` copies to the clipboard:
`JSON.stringify(packetWithoutHash, null, 2)`. -/
def verificationString (p : TrustPacket) : String :=
  stringifyIndent2 0 (jsonOfPacket (eraseHash p))

/-- A geolocation fix. -/
structure GeoPosition where
  latitude : ℤ
  longitude : ℤ
  accuracy : ℤ
  deriving DecidableEq, Repr

/-- `capturePhoto`, with the environment outcomes explicit: camera stream
acquisition, video metadata loading, and canvas context creation can fail;
on success the photo data URL is returned. -/
def capturePhoto (cameraOk videoOk ctxOk : Bool) (dataURL : String) : Except String String :=
  if cameraOk = false then .error "Camera access denied or not available"
  else if videoOk = false then .error "Failed to capture photo"
  else if ctxOk = false then .error "Failed to get canvas context"
  else .ok dataURL

/-- `getCurrentLocation`: resolves null fields when geolocation is
unavailable or errors; never rejects. -/
def getCurrentLocation (geoAvailable : Bool) (outcome : Except String GeoPosition) :
    LocationFields :=
  if geoAvailable = false then ⟨none, none, none⟩
  else
    match outcome with
    | .ok pos => ⟨some pos.latitude, some pos.longitude, some pos.accuracy⟩
    | .error _ => ⟨none, none, none⟩

/-- `generateAudioSignature`: joins the first 32 frequency bytes with commas;
on any failure resolves the sentinel `audio_unavailable`; never rejects. -/
def generateAudioSignature (micOutcome : Except String (List ℕ)) : String :=
  match micOutcome with
  | .ok dataArray => String.intercalate "," ((dataArray.take 32).map toString)
  | .error _ => "audio_unavailable"

/-- The environment a `captureEvidence` run observes: device outcomes plus
the nondeterministically generated identifiers and clock readings. -/
structure CaptureEnvironment where
  cameraOk : Bool
  videoOk : Bool
  ctxOk : Bool
  photoDataURL : String
  geoAvailable : Bool
  geoOutcome : Except String GeoPosition
  micOutcome : Except String (List ℕ)
  eventId : String
  timestampISO : String
  userAgent : String
  platform : String
  language : String
  captureDelay : ℤ

/-- `captureEvidence`: acquires photo, location and audio signature
(`Promise.all` — it rejects exactly when `capturePhoto` rejects, the other
two never reject), assembles the unsealed packet, then seals it. -/
def captureEvidence (env : CaptureEnvironment) : Except String TrustPacket :=
  match capturePhoto env.cameraOk env.videoOk env.ctxOk env.photoDataURL with
  | .error e => .error e
  | .ok photo =>
    .ok (sealPacket
      { eventId := env.eventId
        timestamp := env.timestampISO
        location := getCurrentLocation env.geoAvailable env.geoOutcome
        evidence := ⟨photo, generateAudioSignature env.micOutcome⟩
        metadata := ⟨env.userAgent, env.platform ++ " - " ++ env.language, env.captureDelay⟩
        hash := none })

/-- A concrete unsealed packet used for the serialization counterexample. -/
def samplePacket : TrustPacket :=
  { eventId := "bodabox_1_a"
    timestamp := "2025-01-01T00:00:00.000Z"
    location := ⟨some 1, some 36, some 5⟩
    evidence := ⟨"data:image/jpeg;base64,AAAA", "1,2,3"⟩
    metadata := ⟨"UA", "Linux - en", 1600⟩
    hash := none }

/-- A concrete capture environment: device acquisition succeeds for the
camera, while geolocation and the microphone are denied. -/
def sampleEnv : CaptureEnvironment :=
  { cameraOk := true
    videoOk := true
    ctxOk := true
    photoDataURL := "data:image/jpeg;base64,AAAA"
    geoAvailable := false
    geoOutcome := .error "User denied Geolocation"
    micOutcome := .error "Permission denied"
    eventId := "bodabox_1_a"
    timestampISO := "2025-01-01T00:00:00.000Z"
    userAgent := "UA"
    platform := "Linux"
    language := "en"
    captureDelay := 1600 }

/-! ## Helper lemmas -/

/-- A filter by a predicate that, along a pairwise-monotone list, can only
turn from false to true is the same as dropping the leading false part. -/
theorem filter_eq_dropWhile_not_of_pairwise {α : Type} (p : α → Bool) (l : List α)
    (hl : l.Pairwise fun a b => p a = true → p b = true) :
    l.filter p = l.dropWhile fun a => !p a := by
  induction l with
  | nil => rfl
  | cons a t ih =>
    rcases List.pairwise_cons.mp hl with ⟨ha, ht⟩
    cases hpa : p a with
    | false => simp [List.filter_cons, List.dropWhile_cons, hpa, ih ht]
    | true =>
      simp only [List.filter_cons, List.dropWhile_cons, hpa, Bool.not_true, if_pos, ite_true,
        ite_false, Bool.false_eq_true, reduceIte]
      exact congrArg (a :: ·) (List.filter_eq_self.mpr fun b hb => ha b hb hpa)

/-- One `pushSample` keeps the buffer within capacity. -/
theorem pushSample_length_le (buffer : List SensorReading) (r : SensorReading)
    (h : buffer.length ≤ BUFFER_SIZE) : (pushSample buffer r).length ≤ BUFFER_SIZE := by
  unfold pushSample
  simp only []
  split_ifs with hgt
  · simpa using h
  · simp only [List.length_append, List.length_singleton, not_lt] at hgt ⊢
    omega

/-- Any sequence of pushes starting within capacity stays within capacity. -/
theorem foldl_pushSample_length_le (rs : List SensorReading) :
    ∀ buffer : List SensorReading, buffer.length ≤ BUFFER_SIZE →
      (rs.foldl pushSample buffer).length ≤ BUFFER_SIZE := by
  induction rs with
  | nil => intro b h; simpa using h
  | cons r rs ih => intro b h; exact ih _ (pushSample_length_le b r h)

/-- Removing the hash from a freshly sealed packet recovers the unsealed
packet. -/
theorem eraseHash_sealPacket (p : TrustPacket) (h : p.hash = none) :
    eraseHash (sealPacket p) = p := by
  cases p
  simp_all [eraseHash, sealPacket]

/-! ## Claim theorems -/

/-- C10: a buffer holding fewer than 10 samples in total is never reported
as a crash, regardless of the samples' magnitudes and rotations — the
population precondition of `analyzeBuffer` over and above the 5-sample
window minimum. -/
theorem analyzeBuffer_requires_ten_samples (now : ℚ) (buffer : List SensorReading)
    (h : buffer.length < 10) : analyzeBuffer now buffer = false := by
  simp [analyzeBuffer, h]

/-- Witness for `analyzeBuffer_requires_ten_samples`: six samples of
magnitude 5 g with rotation change 120 are still rejected. -/
theorem analyzeBuffer_requires_ten_samples_witness :
    sixSampleBuffer.length < 10 ∧ analyzeBuffer 100 sixSampleBuffer = false :=
  ⟨by norm_num [sixSampleBuffer],
   analyzeBuffer_requires_ten_samples 100 sixSampleBuffer (by norm_num [sixSampleBuffer])⟩

/-- C2 (amended): the detector returns true iff all four gates pass — at
least 10 samples in the whole buffer, at least 5 samples in the 100 ms
window, at least 3 window samples with magnitude strictly above 4.0 g, and
an endpoint rotation change of at least the 90-degree threshold. -/
theorem analyzeBuffer_gates_iff (now : ℚ) (buffer : List SensorReading) :
    analyzeBuffer now buffer = true ↔
      10 ≤ buffer.length ∧
      5 ≤ (recentReadings now buffer).length ∧
      3 ≤ ((recentReadings now buffer).filter exceedsHighG).length ∧
      ROTATION_THRESHOLD ≤ calculateRotationChange (recentReadings now buffer) := by
  unfold analyzeBuffer
  simp only []
  split_ifs with h1 h2 h3 h4
  · simp only [Bool.false_eq_true, false_iff]
    rintro ⟨hA, -, -, -⟩
    omega
  · simp only [Bool.false_eq_true, false_iff]
    rintro ⟨-, hB, -, -⟩
    omega
  · simp only [Bool.false_eq_true, false_iff]
    rintro ⟨-, -, hC, -⟩
    omega
  · simp only [Bool.false_eq_true, false_iff]
    rintro ⟨-, -, -, hD⟩
    exact absurd hD (not_le.mpr h4)
  · simp only [true_iff]
    exact ⟨by omega, by omega, by omega, le_of_not_lt h4⟩

/-- Counterexample to C2 as stated: a six-sample buffer on which the three
named gates all pass (window population 6 ≥ 5, six high-G samples ≥ 3,
rotation change 120 exceeding 90) yet the detector returns false, because
the claim omits the whole-buffer population gate. -/
theorem analyzeBuffer_gates_iff_counterexample :
    5 ≤ (recentReadings 100 sixSampleBuffer).length ∧
    3 ≤ ((recentReadings 100 sixSampleBuffer).filter exceedsHighG).length ∧
    ROTATION_THRESHOLD < calculateRotationChange (recentReadings 100 sixSampleBuffer) ∧
    analyzeBuffer 100 sixSampleBuffer = false := by
  norm_num [analyzeBuffer, recentReadings, windowRetrieval, sixSampleBuffer, mkReading,
    SUSTAINED_DURATION_MS, ROTATION_THRESHOLD, HIGH_G_THRESHOLD, List.filter, exceedsHighG,
    calculateMagnitudeSq, calculateRotationChange, List.getLast]

/-- Counterexample to C1 as stated: six samples pushed within the last
100 ms, all of magnitude 5.0 g and with rotation change 120 between first
and last, make the detector return false, not true — six samples are below
the 10-sample buffer population gate. -/
theorem sixSamples_not_detected_counterexample :
    sixSampleBuffer.length = 6 ∧
    (∀ r ∈ sixSampleBuffer, (100 : ℚ) - r.timestamp ≤ SUSTAINED_DURATION_MS) ∧
    (∀ r ∈ sixSampleBuffer,
      calculateMagnitudeSq r.accelerationX r.accelerationY r.accelerationZ = 5 * 5) ∧
    calculateRotationChange sixSampleBuffer = 120 ∧
    analyzeBuffer 100 sixSampleBuffer = false := by
  norm_num [analyzeBuffer, recentReadings, windowRetrieval, sixSampleBuffer, mkReading,
    SUSTAINED_DURATION_MS, HIGH_G_THRESHOLD, List.filter, exceedsHighG,
    calculateMagnitudeSq, calculateRotationChange, List.getLast]

/-- C1 (amended): once the buffer population reaches 10 — four older
samples outside the 100 ms window followed by the six scenario-A samples
(magnitude 5.0 g, rotation delta 120, all within 100 ms) — the detector
returns true. -/
theorem tenSamples_detected :
    tenSampleBuffer.length = 10 ∧
    recentReadings 100 tenSampleBuffer = sixSampleBuffer ∧
    (∀ r ∈ sixSampleBuffer,
      calculateMagnitudeSq r.accelerationX r.accelerationY r.accelerationZ = 5 * 5) ∧
    calculateRotationChange sixSampleBuffer = 120 ∧
    analyzeBuffer 100 tenSampleBuffer = true := by
  norm_num [analyzeBuffer, recentReadings, windowRetrieval, tenSampleBuffer, fourOldSamples,
    sixSampleBuffer, mkReading, SUSTAINED_DURATION_MS, HIGH_G_THRESHOLD, ROTATION_THRESHOLD,
    List.filter, exceedsHighG, calculateMagnitudeSq, calculateRotationChange, List.getLast]

/-- C9: on a non-empty, time-ordered buffer analyzed at the most recent
sample's timestamp, the windowed retrieval is a suffix of the buffer (so it
is order-preserving), contains exactly the samples whose timestamp is
within `d` of the most recent sample's timestamp, and is the retrieval the
detector runs (`recentReadings` with `d = SUSTAINED_DURATION_MS`). -/
theorem windowRetrieval_is_recent_suffix (buffer : List SensorReading) (_hne : buffer ≠ [])
    (hsorted : buffer.Pairwise fun a b => a.timestamp ≤ b.timestamp) (d : ℚ) :
    (windowRetrieval (lastTimestamp buffer) d buffer <:+ buffer) ∧
    (∀ r, r ∈ windowRetrieval (lastTimestamp buffer) d buffer ↔
      r ∈ buffer ∧ lastTimestamp buffer - r.timestamp ≤ d) ∧
    recentReadings (lastTimestamp buffer) buffer =
      windowRetrieval (lastTimestamp buffer) SUSTAINED_DURATION_MS buffer := by
  refine ⟨?_, ?_, rfl⟩
  · have hpw : buffer.Pairwise fun a b =>
        decide (lastTimestamp buffer - a.timestamp ≤ d) = true →
        decide (lastTimestamp buffer - b.timestamp ≤ d) = true := by
      refine hsorted.imp ?_
      intro a b hab
      simp only [decide_eq_true_eq]
      intro h
      linarith
    rw [windowRetrieval, filter_eq_dropWhile_not_of_pairwise _ _ hpw]
    exact List.dropWhile_suffix _
  · intro r
    simp [windowRetrieval, List.mem_filter]

/-- Witness for `windowRetrieval_is_recent_suffix` on the concrete
six-sample buffer. -/
theorem windowRetrieval_is_recent_suffix_witness :
    sixSampleBuffer ≠ [] ∧
    (sixSampleBuffer.Pairwise fun a b => a.timestamp ≤ b.timestamp) ∧
    windowRetrieval (lastTimestamp sixSampleBuffer) 30 sixSampleBuffer <:+ sixSampleBuffer :=
  ⟨by simp [sixSampleBuffer], by norm_num [sixSampleBuffer, mkReading, List.pairwise_cons],
   (windowRetrieval_is_recent_suffix sixSampleBuffer (by simp [sixSampleBuffer])
     (by norm_num [sixSampleBuffer, mkReading, List.pairwise_cons]) 30).1⟩

/-- C8: the buffer never exceeds `BUFFER_SIZE = 100` under any sequence of
pushes, and a push at exactly full capacity evicts the oldest sample while
appending the new one at the end (FIFO order preserved). -/
theorem pushSample_capacity_and_fifo (rs : List SensorReading)
    (buffer : List SensorReading) (r : SensorReading) :
    (rs.foldl pushSample []).length ≤ BUFFER_SIZE ∧
    (buffer.length = BUFFER_SIZE → pushSample buffer r = buffer.tail ++ [r]) := by
  constructor
  · exact foldl_pushSample_length_le rs [] (by simp)
  · intro h
    unfold pushSample
    simp only []
    rw [if_pos (by simp [h])]
    cases buffer with
    | nil => simp [BUFFER_SIZE] at h
    | cons a t => simp

/-- Witness for `pushSample_capacity_and_fifo` at a concrete full buffer. -/
theorem pushSample_capacity_and_fifo_witness :
    (List.replicate 100 (mkReading 0 0 0 0 0 0 0)).length = BUFFER_SIZE ∧
    pushSample (List.replicate 100 (mkReading 0 0 0 0 0 0 0)) (mkReading 1 0 0 0 0 0 0) =
      (List.replicate 100 (mkReading 0 0 0 0 0 0 0)).tail ++ [mkReading 1 0 0 0 0 0 0] :=
  ⟨by simp [BUFFER_SIZE],
   (pushSample_capacity_and_fifo [] _ _).2 (by simp [BUFFER_SIZE])⟩

/-- C5: every state-changing transition of the detection state machine is
one of: Armed→Confirming on a detection or the manual emergency button
(entering with the countdown at 5), Confirming→Armed on cancel,
Confirming→Triggered when the countdown has reached zero, or
Triggered→Armed on reset; a detection (or the emergency button) arriving in
Confirming or Triggered leaves the state unchanged; and from a fresh
Confirming entry the 5-count countdown reaches zero after five ticks and
then fires the trigger. -/
theorem stepMachine_transitions (s : MachineState) (e : MachineEvent) :
    ((stepMachine s e).appState ≠ s.appState →
      (s.appState = .ARMED ∧ (e = .crashDetected ∨ e = .emergencyButton) ∧
        stepMachine s e = ⟨.CONFIRMING, COUNTDOWN_START⟩) ∨
      (s.appState = .CONFIRMING ∧ e = .cancelAlert ∧ (stepMachine s e).appState = .ARMED) ∨
      (s.appState = .CONFIRMING ∧ e = .countdownTick ∧ s.countdown = 0 ∧
        (stepMachine s e).appState = .TRIGGERED) ∨
      (s.appState = .TRIGGERED ∧ e = .resetApp ∧ (stepMachine s e).appState = .ARMED)) ∧
    (s.appState ≠ .ARMED →
      stepMachine s .crashDetected = s ∧ stepMachine s .emergencyButton = s) ∧
    ((List.replicate 5 MachineEvent.countdownTick).foldl stepMachine
        ⟨.CONFIRMING, COUNTDOWN_START⟩ = ⟨.CONFIRMING, 0⟩ ∧
      stepMachine ⟨.CONFIRMING, 0⟩ .countdownTick = ⟨.TRIGGERED, 0⟩) := by
  refine ⟨?_, ?_, by decide⟩
  · obtain ⟨app, cd⟩ := s
    intro hne
    cases app <;> cases e <;>
      simp_all [stepMachine, COUNTDOWN_START] <;>
      rcases Nat.eq_zero_or_pos cd with hcd | hcd <;>
      simp_all [stepMachine, Nat.pos_iff_ne_zero]
  · obtain ⟨app, cd⟩ := s
    intro hne
    cases app
    all_goals simp_all [stepMachine]

/-- Witness for `stepMachine_transitions`: a detection arriving while
Confirming is ignored. -/
theorem stepMachine_transitions_witness :
    (MachineState.mk .CONFIRMING 3).appState ≠ .ARMED ∧
    (stepMachine ⟨.CONFIRMING, 3⟩ .crashDetected = ⟨.CONFIRMING, 3⟩ ∧
      stepMachine ⟨.CONFIRMING, 3⟩ .emergencyButton = ⟨.CONFIRMING, 3⟩) :=
  ⟨by decide, (stepMachine_transitions ⟨.CONFIRMING, 3⟩ .crashDetected).2.1 (by decide)⟩

/-- C6 (code evaluation at the failing input): one online drain of a queue
holding a single emergency-SMS item whose dispatch fails leaves the
persisted queue unchanged — the in-memory `retryCount` increment is
discarded because no item was processed, so the item's persisted
`retryCount` stays 0, it is never reported, and every later drain attempts
it again: it is not removed after 3 failures. -/
theorem processQueue_stuck_item_retried_forever :
    stuckItem.retryCount = 0 ∧
    attemptSucceeds (fun _ => false) stuckItem = false ∧
    processQueue true (fun _ => false) [stuckItem] = ⟨[stuckItem], []⟩ := by
  refine ⟨rfl, rfl, ?_⟩
  decide

/-- C3: sealing is deterministic and hashes exactly the serialization of
the record without its hash field — the digest attached by `sealPacket`
equals `generateHash` (SHA-256, lowercase hex, over the UTF-8 encoding) of
the compact serialization of the sealed record with the hash field
removed; sealing identical field values yields identical digests; and
every packet produced by `captureEvidence` carries such a digest. -/
theorem sealPacket_digest (p : TrustPacket) (hp : p.hash = none) :
    (sealPacket p).hash =
      some (generateHash (stringifyCompact (jsonOfPacket (eraseHash (sealPacket p))))) ∧
    (∀ q : TrustPacket, q.hash = none → eraseHash q = eraseHash p →
      (sealPacket q).hash = (sealPacket p).hash) ∧
    (∀ (env : CaptureEnvironment) (p' : TrustPacket), captureEvidence env = .ok p' →
      p'.hash = some (generateHash (stringifyCompact (jsonOfPacket (eraseHash p'))))) := by
  refine ⟨?_, ?_, ?_⟩
  · rw [eraseHash_sealPacket p hp]
    rfl
  · intro q hq hqp
    have hq' : q = p := by
      have h1 : eraseHash q = q := by cases q; simp_all [eraseHash]
      have h2 : eraseHash p = p := by cases p; simp_all [eraseHash]
      rw [← h1, ← h2, hqp]
    rw [hq']
  · intro env p' h
    unfold captureEvidence at h
    cases hph : capturePhoto env.cameraOk env.videoOk env.ctxOk env.photoDataURL with
    | error e => rw [hph] at h; exact absurd h (by simp)
    | ok photo =>
      rw [hph] at h
      injection h with hp'
      rw [← hp', eraseHash_sealPacket _ rfl]
      rfl

/-- Witness for `sealPacket_digest` at the concrete sample packet. -/
theorem sealPacket_digest_witness :
    samplePacket.hash = none ∧
    (sealPacket samplePacket).hash =
      some (generateHash (stringifyCompact (jsonOfPacket (eraseHash (sealPacket samplePacket))))) :=
  ⟨rfl, (sealPacket_digest samplePacket rfl).1⟩

/-- C7: the capture fails exactly when image acquisition fails (and with
its error); when it succeeds, a geolocation failure (capability absent or
position error) yields a record whose three location fields are all null,
and an audio failure yields the `audio_unavailable` sentinel — neither
aborts the capture. -/
theorem captureEvidence_failure_semantics (env : CaptureEnvironment) :
    ((captureEvidence env).isOk =
      (capturePhoto env.cameraOk env.videoOk env.ctxOk env.photoDataURL).isOk) ∧
    (∀ e, capturePhoto env.cameraOk env.videoOk env.ctxOk env.photoDataURL = .error e →
      captureEvidence env = .error e) ∧
    (∀ p, captureEvidence env = .ok p →
      ((env.geoAvailable = false ∨ (∃ e, env.geoOutcome = .error e)) →
        p.location = ⟨none, none, none⟩) ∧
      ((∃ e, env.micOutcome = .error e) →
        p.evidence.audioSignature = "audio_unavailable")) := by
  unfold captureEvidence
  cases hph : capturePhoto env.cameraOk env.videoOk env.ctxOk env.photoDataURL with
  | error e =>
    refine ⟨rfl, fun e' he' => ?_, fun p hp => absurd hp (by simp)⟩
    simpa using he'
  | ok photo =>
    refine ⟨rfl, fun e' he' => absurd he' (by simp), fun p hp => ?_⟩
    injection hp with hp'
    subst hp'
    constructor
    · intro hgeo
      show getCurrentLocation env.geoAvailable env.geoOutcome = ⟨none, none, none⟩
      rcases hgeo with hna | ⟨e, he⟩
      · simp [getCurrentLocation, hna]
      · cases hav : env.geoAvailable
        · simp [getCurrentLocation]
        · simp [getCurrentLocation, he]
    · rintro ⟨e, he⟩
      show generateAudioSignature env.micOutcome = "audio_unavailable"
      rw [he]
      rfl

/-- Witness for `captureEvidence_failure_semantics`: with the camera denied
the whole capture fails. -/
theorem captureEvidence_failure_semantics_witness :
    (captureEvidence { sampleEnv with cameraOk := false }).isOk = false :=
  (captureEvidence_failure_semantics { sampleEnv with cameraOk := false }).1.trans (by rfl)

/-- C4 (code evaluation at the failing input): for a concrete sealed
packet, the digest stored at sealing time is the SHA-256 of the *compact*
serialization of the packet without its hash field, while the string the
verification path copies (`JSON.stringify(packetWithoutHash, null, 2)`) is
the two-space pretty-printed serialization — and the two serializations
are not byte-for-byte equal, so the copied string is not the string whose
digest is stored. -/
theorem verification_serialization_mismatch :
    (sealPacket samplePacket).hash =
      some (generateHash (stringifyCompact (jsonOfPacket (eraseHash (sealPacket samplePacket))))) ∧
    verificationString (sealPacket samplePacket) ≠
      stringifyCompact (jsonOfPacket (eraseHash (sealPacket samplePacket))) := by
  constructor
  · rw [eraseHash_sealPacket samplePacket rfl]
    rfl
  · rw [verificationString, eraseHash_sealPacket samplePacket rfl]
    decide

end Boda
